import Mathlib

/-!
Shallow embedding of the artifact-resolution and build-orchestration core of
`cargo-binutils` (src/lib.rs, src/llvm.rs, src/tool.rs), together with proofs
about the selection, tie-break, error and target-resolution behaviour.

Machine-level side effects (spawning `cargo`, pipes) are abstracted away: the
child process is represented by the list of structured messages it emitted and
its exit status.  Indexing panics (`kind[0]`, `filenames[0]` on empty vectors)
are modelled by `Option`, with `none` meaning the Rust code would panic.
-/

namespace Binutils

/-- `cargo_metadata::Target` as used by lib.rs: a declared name and the ordered
list of kind strings. -/
structure Target where
  name : String
  kind : List String
deriving DecidableEq

/-- `cargo_metadata::Artifact` as used by lib.rs: owning package id, target,
optional executable path and ordered list of produced file paths. -/
structure Artifact where
  package_id : String
  target : Target
  executable : Option String
  filenames : List String
deriving DecidableEq

/-- `cargo_metadata::Message` as consumed by `cargo_build` (lib.rs 347-364):
a compiled artifact, a compiler diagnostic with an optional rendered text, or
any other message (ignored by the loop). -/
inductive Message where
  | compilerArtifact (artifact : Artifact)
  | compilerMessage (rendered : Option String)
  | other
deriving DecidableEq

/-- `enum BuildType` (lib.rs 21-30). -/
inductive BuildType where
  | any
  | bin (name : String)
  | example' (name : String)
  | test (name : String)
  | bench (name : String)
  | customBuild
  | lib
deriving DecidableEq

/-- `BuildType::matches` (lib.rs 33-51).  The Rust code indexes `kind[0]`,
which panics when the kind list is empty; that panic is modelled as `none`.
`BuildType::Any` matches every artifact (filtering happens later). -/
def BuildType.matches : BuildType → Artifact → Option Bool
  | .any, _ => some true
  | .bin n, a => a.target.kind.head?.map (fun k => k == "bin" && a.target.name == n)
  | .example' n, a => a.target.kind.head?.map (fun k => k == "example" && a.target.name == n)
  | .test n, a => a.target.kind.head?.map (fun k => k == "test" && a.target.name == n)
  | .bench n, a => a.target.kind.head?.map (fun k => k == "bench" && a.target.name == n)
  | .customBuild, a => a.target.kind.head?.map (fun k => k == "custom-build")
  | .lib, a => some (a.target.kind.any (fun s =>
      s != "bin" && s != "example" && s != "test" && s != "custom-build" && s != "bench"))

/-- `enum Tool` (tool.rs 11-21). -/
inductive Tool where
  | ar
  | lld
  | nm
  | objcopy
  | objdump
  | profdata
  | readobj
  | size
  | strip
deriving DecidableEq

/-- `Tool::name` (tool.rs 24-36). -/
def Tool.name : Tool → String
  | .ar => "ar"
  | .lld => "lld"
  | .nm => "nm"
  | .objcopy => "objcopy"
  | .objdump => "objdump"
  | .profdata => "profdata"
  | .readobj => "readobj"
  | .size => "size"
  | .strip => "strip"

/-- `Tool::needs_build` (tool.rs 108-115). -/
def Tool.needs_build : Tool → Bool
  | .ar | .lld | .profdata => false
  | .nm | .objcopy | .objdump | .readobj | .size | .strip => true

/-- `BuildType::from_artifact` (lib.rs 53-68).  Reads `kind[0]`, which panics
on an empty kind list (modelled as `none`). -/
def BuildType.from_artifact (a : Artifact) : Option BuildType :=
  a.target.kind.head?.map (fun k =>
    match k with
    | "bin" => .bin a.target.name
    | "example" => .example' a.target.name
    | "test" => .test a.target.name
    | "bench" => .bench a.target.name
    | "custom-build" => .customBuild
    | _ =>
      if a.target.kind.any (fun s =>
          s != "bin" && s != "example" && s != "test" && s != "custom-build" && s != "bench") then
        .lib
      else
        .any)

/-- `BuildType::generate_command` (lib.rs 70-90).  The exact text of the Rust
`{:?}` debug rendering of the kind vector is abbreviated by `toString`; no
claim depends on that branch's text. -/
def BuildType.generate_command (tool : Tool) (a : Artifact) : Option String :=
  (BuildType.from_artifact a).map (fun bt =>
    match bt with
    | .any => "Unknown target: " ++ a.target.name ++ ", " ++ toString a.target.kind
    | .customBuild => "Unable to create command for custom-build target: " ++ a.target.name
    | .bin n => "cargo " ++ tool.name ++ " --bin " ++ n
    | .example' n => "cargo " ++ tool.name ++ " --example " ++ n
    | .test n => "cargo " ++ tool.name ++ " --test " ++ n
    | .bench n => "cargo " ++ tool.name ++ " --bench " ++ n
    | .lib => "cargo " ++ tool.name ++ " --lib " ++ a.target.name)

/-- `BuildType::generate_command_with_package` (lib.rs 92-133). -/
def BuildType.generate_command_with_package (tool : Tool) (a : Artifact) : Option String :=
  (BuildType.from_artifact a).map (fun bt =>
    match bt with
    | .any => "Unknown target: " ++ a.package_id ++ " " ++ a.target.name ++ ", "
        ++ toString a.target.kind
    | .customBuild => "Unable to create command for custom-build target: "
        ++ a.package_id ++ " " ++ a.target.name
    | .bin n => "cargo " ++ tool.name ++ " --package " ++ a.package_id ++ " --bin " ++ n
    | .example' n => "cargo " ++ tool.name ++ " --package " ++ a.package_id ++ " --example " ++ n
    | .test n => "cargo " ++ tool.name ++ " --package " ++ a.package_id ++ " --test " ++ n
    | .bench n => "cargo " ++ tool.name ++ " --package " ++ a.package_id ++ " --bench " ++ n
    | .lib => "cargo " ++ tool.name ++ " --package " ++ a.package_id ++ " --lib "
        ++ a.target.name)

/-- Option-valued `map`, used to thread the potential `kind[0]` panic of the
per-artifact command rendering through a whole list. -/
def mapOption (f : α → Option β) : List α → Option (List β)
  | [] => some []
  | a :: rest =>
    match f a, mapOption f rest with
    | some b, some bs => some (b :: bs)
    | _, _ => none

/-- The result shape of `format_targets` (lib.rs 606-640): a flat command list
when all artifacts share one package id, otherwise commands grouped under
their package id.  The Rust code builds the groups in a `HashMap`, whose
iteration order is unspecified; this model fixes one order (`List.dedup` of
the package ids), a deterministic refinement. -/
inductive FormattedTargets where
  | single (commands : List String)
  | grouped (groups : List (String × List String))
deriving DecidableEq

/-- Whether `format_targets` grouped its output by package. -/
def FormattedTargets.isGrouped : FormattedTargets → Bool
  | .single _ => false
  | .grouped _ => true

/-- All command lines listed by a `format_targets` result. -/
def FormattedTargets.listedCommands : FormattedTargets → List String
  | .single cmds => cmds
  | .grouped gs => (gs.map Prod.snd).flatten

/-- `format_targets` (lib.rs 606-640): group artifacts by package id; with a
single package render plain commands, otherwise render commands carrying
`--package`, grouped per package.  Per-group artifact order follows arrival
order, as in the source (groups are built by pushing in iteration order). -/
def format_targets (tool : Tool) (artifacts : List Artifact) : Option FormattedTargets :=
  let keys := (artifacts.map (·.package_id)).dedup
  if keys.length == 1 then
    (mapOption (BuildType.generate_command tool) artifacts).map .single
  else
    (mapOption (fun k =>
        (mapOption (BuildType.generate_command_with_package tool)
            (artifacts.filter (fun a => a.package_id == k))).map
          (fun cmds => (k, cmds)))
      keys).map .grouped

/-- `std::process::ExitStatus` as used by `cargo_build`: whether the child
succeeded and its exit code (`none` when terminated by a signal). -/
structure ExitStatus where
  success : Bool
  code : Option Int
deriving DecidableEq

/-- One entry of the drain loop's observable behaviour: a candidate artifact
pushed onto `artifacts`, or a rendered diagnostic printed. -/
abbrev TraceEntry := Artifact ⊕ String

/-- The artifacts accumulated along a trace, in order. -/
def traceArtifacts : List TraceEntry → List Artifact
  | [] => []
  | .inl a :: t => a :: traceArtifacts t
  | .inr _ :: t => traceArtifacts t

/-- The rendered diagnostics printed along a trace, in order. -/
def traceDiagnostics : List TraceEntry → List String
  | [] => []
  | .inl _ :: t => traceDiagnostics t
  | .inr r :: t => r :: traceDiagnostics t

/-- The drain loop of `cargo_build` (lib.rs 346-365): every message is
processed in stream order; a `CompilerArtifact` is accumulated when its
package is a workspace member and it matches the build type (the membership
test short-circuits, so `matches` — and its potential `kind[0]` panic — is
only reached for members); a `CompilerMessage` with rendered text is printed
immediately; everything else is ignored.  `none` models a panic. -/
def drainEvents (members : List String) (bt : BuildType) :
    List Message → Option (List TraceEntry)
  | [] => some []
  | .compilerArtifact a :: rest =>
    if a.package_id ∈ members then
      match bt.matches a with
      | none => none
      | some true => (drainEvents members bt rest).map (Sum.inl a :: ·)
      | some false => drainEvents members bt rest
    else
      drainEvents members bt rest
  | .compilerMessage (some r) :: rest => (drainEvents members bt rest).map (Sum.inr r :: ·)
  | .compilerMessage none :: rest => drainEvents members bt rest
  | .other :: rest => drainEvents members bt rest

/-- The errors `cargo_build` can bail with after draining (lib.rs 367-430).
Each constructor records the data interpolated into the corresponding
`bail!` message; `possible` is the artifact list handed to `format_targets`
(the unfiltered accumulated list, as in the source). -/
inductive BuildError where
  /-- lib.rs 368-385: the child exited unsuccessfully
  ("Failed to run `cargo build` ..."), with its exit code when present. -/
  | buildFailed (code : Option Int)
  /-- lib.rs 387-396: "`cargo build` didn't compile any targets" — the build
  succeeded but zero matching candidates were accumulated. -/
  | noMatchingTargets
  /-- lib.rs 409-418: "No matching targets. ... Possible targets: ..." — the
  `Any` tie-break filter removed every accumulated candidate. -/
  | noMatchingAfterFilter (buildType : BuildType) (possible : List Artifact)
  /-- lib.rs 421-430: "Can only have one matching target but found several."
  listing the possible targets. -/
  | ambiguousTargets (buildType : BuildType) (possible : List Artifact)
deriving DecidableEq

/-- The tie-break filter body (lib.rs 402-405):
`filter(|a| !BuildType::CustomBuild.matches(a))`.  The `matches` call reads
`kind[0]` and can panic, modelled as `none`. -/
def filterNotCustomBuild : List Artifact → Option (List Artifact)
  | [] => some []
  | a :: rest =>
    match BuildType.customBuild.matches a with
    | none => none
    | some true => filterNotCustomBuild rest
    | some false => (filterNotCustomBuild rest).map (a :: ·)

/-- lib.rs 398-407: when the build type is `Any` and more than one artifact
was accumulated, filter out custom-build artifacts; otherwise keep the list. -/
def filteredArtifacts (bt : BuildType) (artifacts : List Artifact) : Option (List Artifact) :=
  match bt with
  | .any =>
    if artifacts.length > 1 then filterNotCustomBuild artifacts else some artifacts
  | _ => some artifacts

/-- The decision part of `cargo_build` after the drain loop (lib.rs 367-432):
check the exit status first, then emptiness, then apply the `Any` tie-break
filter, then require exactly one remaining artifact. -/
def selectArtifact (bt : BuildType) (artifacts : List Artifact) (status : ExitStatus) :
    Option (Except BuildError Artifact) :=
  if status.success = false then
    some (.error (.buildFailed status.code))
  else if artifacts.isEmpty then
    some (.error .noMatchingTargets)
  else
    match filteredArtifacts bt artifacts with
    | none => none
    | some filtered =>
      match filtered with
      | [] => some (.error (.noMatchingAfterFilter bt artifacts))
      | [a] => some (.ok a)
      | _ :: _ :: _ => some (.error (.ambiguousTargets bt artifacts))

/-- The observable selection behaviour of `cargo_build` (lib.rs 341-432):
drain the message stream, then decide on the accumulated artifacts and the
child's exit status.  `none` models a panic of the Rust code. -/
def cargo_build (bt : BuildType) (members : List String) (events : List Message)
    (status : ExitStatus) : Option (Except BuildError Artifact) :=
  match drainEvents members bt events with
  | none => none
  | some trace => selectArtifact bt (traceArtifacts trace) status

/-- lib.rs 481-490: the file handed to the tool — the executable when the
artifact has one, else `filenames[0]` (a panic on an empty list, modelled as
`none`). -/
def selectFile (a : Artifact) : Option String :=
  match a.executable with
  | some v => some v
  | none => a.filenames.head?

/-- `rustc_cfg::Cfg` as consumed by llvm.rs: the target's architecture and
endianness strings as reported by the toolchain. -/
structure Cfg where
  target_arch : String
  target_endian : String
deriving DecidableEq

/-- The non-thumb arm of `llvm::arch_name` (llvm.rs 72-90): the Rust→LLVM
architecture-spelling table, falling back to the Rust spelling itself. -/
def archMapping (arch endian : String) : String :=
  match arch, endian with
  | "aarch64", "big" => "aarch64_be"
  | "arm", "big" => "armeb"
  | "mips", "little" => "mipsel"
  | "mips64", "little" => "mips64el"
  | "powerpc64", "little" => "ppc64le"
  | "sparc", "little" => "sparcel"
  | "powerpc", _ => "ppc32"
  | "powerpc64", "big" => "ppc64"
  | "sparc64", _ => "sparcv9"
  | "s390x", _ => "systemz"
  | "x86_64", _ => "x86-64"
  | _, _ => arch

/-- `llvm::arch_name` (llvm.rs 56-92): target identifiers starting with
"thumb" ignore `target_arch` and pick "thumbeb"/"thumb" from the endianness
alone; everything else goes through the spelling table. -/
def arch_name (cfg : Cfg) (target : String) : String :=
  if "thumb".data.isPrefixOf target.data then
    if cfg.target_endian == "big" then "thumbeb" else "thumb"
  else
    archMapping cfg.target_arch cfg.target_endian

/-- The `Tool::Objdump` flag computation (lib.rs 461-471): when the derived
arch name is exactly "thumb" pass `-triple=$target`, otherwise pass
`-arch-name=$arch`. -/
def objdumpArchArgs (cfg : Cfg) (target_name : String) : List String :=
  let arch := arch_name cfg target_name
  if arch == "thumb" then ["-triple", target_name] else ["-arch-name", arch]

/-- The command-line matches consumed by `cargo_build_args` (lib.rs 514-604):
one field per flag the function reads. -/
structure Matches where
  quiet : Bool
  package : Option String
  jobs : Option String
  lib : Bool
  bin : Option String
  example' : Option String
  test : Option String
  bench : Option String
  release : Bool
  profile : Option String
  features : List String
  noDefaultFeatures : Bool
  allFeatures : Bool
  target : Option String
  verbose : Nat
  color : Option String
  frozen : Bool
  locked : Bool
  offline : Bool
  unstableFeatures : List String
deriving DecidableEq

/-- The build-type decision of `cargo_build_args` (lib.rs 529-546): `--lib`
wins, then `--bin`, `--example`, `--test`, `--bench`, else `Any`. -/
def buildTypeOf (m : Matches) : BuildType :=
  if m.lib then .lib
  else match m.bin with
  | some n => .bin n
  | none => match m.example' with
    | some n => .example' n
    | none => match m.test with
      | some n => .test n
      | none => match m.bench with
        | some n => .bench n
        | none => .any

/-- The cargo arguments emitted for the selected build type
(lib.rs 529-546). -/
def buildTypeArgs (m : Matches) : List String :=
  match buildTypeOf m with
  | .lib => ["--lib"]
  | .bin n => ["--bin", n]
  | .example' n => ["--example", n]
  | .test n => ["--test", n]
  | .bench n => ["--bench", n]
  | .customBuild => []
  | .any => []

/-- `cargo_build_args` (lib.rs 514-604): the arguments appended to
`cargo build` (in source order) and the returned `BuildType`. -/
def cargo_build_args (m : Matches) : List String × BuildType :=
  let args :=
    (if m.quiet then ["--quiet"] else [])
    ++ (match m.package with | some p => ["--package", p] | none => [])
    ++ (match m.jobs with | some j => ["-j", j] | none => [])
    ++ buildTypeArgs m
    ++ (if m.release then ["--release"] else [])
    ++ (match m.profile with | some p => ["--profile", p] | none => [])
    ++ (m.features.map (fun f => ["--features", f])).flatten
    ++ (if m.noDefaultFeatures then ["--no-default-features"] else [])
    ++ (if m.allFeatures then ["--all-features"] else [])
    ++ (match m.target with | some t => ["--target", t] | none => [])
    ++ (if m.verbose > 1 then ["-" ++ String.mk (List.replicate (m.verbose - 1) 'v')] else [])
    ++ (match m.color with | some c => ["--color", c] | none => [])
    ++ (if m.frozen then ["--frozen"] else [])
    ++ (if m.locked then ["--locked"] else [])
    ++ (if m.offline then ["--offline"] else [])
    ++ (m.unstableFeatures.map (fun f => ["-Z", f])).flatten
  (args, buildTypeOf m)

/-- Well-formedness of a single message: a compiled artifact must carry a
non-empty kind list (cargo always emits at least one kind; an empty list
makes the Rust code's `kind[0]` panic). -/
def Message.wf : Message → Prop
  | .compilerArtifact a => a.target.kind ≠ []
  | .compilerMessage _ => True
  | .other => True

instance : DecidablePred Message.wf := fun m =>
  match m with
  | .compilerArtifact a => inferInstanceAs (Decidable (a.target.kind ≠ []))
  | .compilerMessage _ => inferInstanceAs (Decidable True)
  | .other => inferInstanceAs (Decidable True)

/-- Every compiled artifact of the stream has a non-empty kind list. -/
def wfEvents (events : List Message) : Prop := ∀ m ∈ events, m.wf

instance (events : List Message) : Decidable (wfEvents events) :=
  List.decidableBAll _ events

/-- The candidates of a stream: the artifacts of `ProductCompiled` events
whose package is a workspace member and which match the build type, in
stream order. -/
def candidates (members : List String) (bt : BuildType) (events : List Message) :
    List Artifact :=
  events.filterMap (fun m =>
    match m with
    | .compilerArtifact a =>
      if a.package_id ∈ members ∧ bt.matches a = some true then some a else none
    | _ => none)

/-- The per-message observable effect of one drain-loop iteration. -/
def entryOf (members : List String) (bt : BuildType) : Message → Option TraceEntry
  | .compilerArtifact a =>
    if a.package_id ∈ members ∧ bt.matches a = some true then
      some (.inl a)
    else
      none
  | .compilerMessage (some r) => some (.inr r)
  | .compilerMessage none => none
  | .other => none

/-- The rendered diagnostics of a stream, in stream order. -/
def renderedDiagnostics (events : List Message) : List String :=
  events.filterMap (fun m =>
    match m with
    | .compilerMessage r => r
    | _ => none)

theorem matches_isSome (bt : BuildType) (a : Artifact) (h : a.target.kind ≠ []) :
    ∃ b, bt.matches a = some b := by
  rcases hk : a.target.kind with _ | ⟨k, ks⟩
  · exact absurd hk h
  · cases bt <;> simp [BuildType.matches, hk]

/-- On a well-formed stream the drain loop never panics and its trace is the
per-message effects in stream order. -/
theorem drainEvents_eq (members : List String) (bt : BuildType) (events : List Message)
    (h : wfEvents events) :
    drainEvents members bt events = some (events.filterMap (entryOf members bt)) := by
  induction events with
  | nil => rfl
  | cons m rest ih =>
    have hrest : wfEvents rest := fun x hx => h x (List.mem_cons_of_mem _ hx)
    have hm : m.wf := h m (List.mem_cons_self _ _)
    match m with
    | .compilerArtifact a =>
      obtain ⟨b, hb⟩ := matches_isSome bt a hm
      by_cases hmem : a.package_id ∈ members
      · cases b <;>
          simp [drainEvents, entryOf, hmem, hb, ih hrest, List.filterMap_cons]
      · simp [drainEvents, entryOf, hmem, ih hrest, List.filterMap_cons]
    | .compilerMessage (some r) =>
      simp [drainEvents, entryOf, ih hrest, List.filterMap_cons]
    | .compilerMessage none =>
      simp [drainEvents, entryOf, ih hrest, List.filterMap_cons]
    | .other =>
      simp [drainEvents, entryOf, ih hrest, List.filterMap_cons]

theorem traceArtifacts_filterMap (members : List String) (bt : BuildType)
    (events : List Message) :
    traceArtifacts (events.filterMap (entryOf members bt)) = candidates members bt events := by
  induction events with
  | nil => rfl
  | cons m rest ih =>
    match m with
    | .compilerArtifact a =>
      by_cases hc : a.package_id ∈ members ∧ bt.matches a = some true <;>
        simpa [entryOf, candidates, hc, List.filterMap_cons, traceArtifacts] using ih
    | .compilerMessage (some r) =>
      simpa [entryOf, candidates, List.filterMap_cons, traceArtifacts] using ih
    | .compilerMessage none =>
      simpa [entryOf, candidates, List.filterMap_cons, traceArtifacts] using ih
    | .other =>
      simpa [entryOf, candidates, List.filterMap_cons, traceArtifacts] using ih

theorem traceDiagnostics_filterMap (members : List String) (bt : BuildType)
    (events : List Message) :
    traceDiagnostics (events.filterMap (entryOf members bt)) = renderedDiagnostics events := by
  induction events with
  | nil => rfl
  | cons m rest ih =>
    match m with
    | .compilerArtifact a =>
      by_cases hc : a.package_id ∈ members ∧ bt.matches a = some true <;>
        simpa [entryOf, renderedDiagnostics, hc, List.filterMap_cons, traceDiagnostics]
          using ih
    | .compilerMessage (some r) =>
      simpa [entryOf, renderedDiagnostics, List.filterMap_cons, traceDiagnostics] using ih
    | .compilerMessage none =>
      simpa [entryOf, renderedDiagnostics, List.filterMap_cons, traceDiagnostics] using ih
    | .other =>
      simpa [entryOf, renderedDiagnostics, List.filterMap_cons, traceDiagnostics] using ih

/-- On a well-formed stream `cargo_build` reduces to the pure selection over
the stream's candidates. -/
theorem cargo_build_eq (bt : BuildType) (members : List String) (events : List Message)
    (status : ExitStatus) (h : wfEvents events) :
    cargo_build bt members events status
      = selectArtifact bt (candidates members bt events) status := by
  unfold cargo_build
  rw [drainEvents_eq members bt events h]
  show selectArtifact bt (traceArtifacts (events.filterMap (entryOf members bt))) status = _
  rw [traceArtifacts_filterMap]

theorem filteredArtifacts_singleton (bt : BuildType) (a : Artifact) :
    filteredArtifacts bt [a] = some [a] := by
  cases bt <;> simp [filteredArtifacts]

theorem filteredArtifacts_of_ne_any (bt : BuildType) (l : List Artifact) (h : bt ≠ .any) :
    filteredArtifacts bt l = some l := by
  cases bt <;> simp_all [filteredArtifacts]

/-- Sample data used by the witnesses. -/
def appArtifact : Artifact :=
  ⟨"app-pkg-id", ⟨"app", ["bin"]⟩, some "target/debug/app", ["target/debug/app"]⟩

def libArtifact : Artifact :=
  ⟨"lib-pkg-id", ⟨"mylib", ["lib"]⟩, none, ["target/debug/libmylib.rlib"]⟩

def customBuildArtifact : Artifact :=
  ⟨"app-pkg-id", ⟨"build-script-build", ["custom-build"]⟩,
    some "target/debug/build/app/build-script-build", []⟩

def okStatus : ExitStatus := ⟨true, some 0⟩

def failStatus : ExitStatus := ⟨false, some 101⟩

/-- C1: for every event stream whose candidates (member artifacts matching
the selector) are exactly one product, and a successful exit status,
`cargo_build` selects and returns exactly that product. -/
theorem C1_unique_candidate_selected
    (bt : BuildType) (members : List String) (events : List Message)
    (status : ExitStatus) (p : Artifact)
    (hwf : wfEvents events) (hs : status.success = true)
    (hc : candidates members bt events = [p]) :
    cargo_build bt members events status = some (.ok p) := by
  rw [cargo_build_eq bt members events status hwf, hc]
  simp [selectArtifact, hs, filteredArtifacts_singleton]

theorem C1_witness :
    cargo_build (.bin "app") ["app-pkg-id"]
      [.compilerArtifact appArtifact, .compilerMessage (some "warning: w"),
        .compilerArtifact libArtifact, .other]
      okStatus = some (.ok appArtifact) :=
  C1_unique_candidate_selected (.bin "app") ["app-pkg-id"]
    [.compilerArtifact appArtifact, .compilerMessage (some "warning: w"),
      .compilerArtifact libArtifact, .other]
    okStatus appArtifact (by decide) (by decide) (by decide)

/-- The spec's stated matching rule for the `Any` selector, written from the
spec's words for comparison with the source's `BuildType.matches`: the kind
tag is binary or example only. -/
def anyMatchesSpec (a : Artifact) : Bool :=
  a.target.kind.head? == some "bin" || a.target.kind.head? == some "example"

/-- C2 counterexample: the source's `Any` arm matches every artifact — a
library artifact and a custom-build-script artifact are both classified as
candidates, although the spec's `Any` rule rejects both. -/
theorem C2_counterexample :
    BuildType.any.matches libArtifact = some true
      ∧ anyMatchesSpec libArtifact = false
      ∧ BuildType.any.matches customBuildArtifact = some true
      ∧ anyMatchesSpec customBuildArtifact = false := by
  decide

/-- C2 amended: under the `Any` selector every `ProductCompiled` artifact is
classified as a candidate, whatever its kind tag (libraries and
custom-build-scripts included); custom-build-scripts are only removed later
by the tie-break filter when more than one candidate accumulated. -/
theorem C2_amended_any_matches_all (a : Artifact) :
    BuildType.any.matches a = some true :=
  rfl

/-- C3: under `Any`, with more than one accumulated candidate the tie-break
filter drops custom-build artifacts; in particular for exactly one binary
candidate and one custom-build candidate the binary is selected. -/
theorem C3_any_buildscript_tiebreak :
    (∀ l : List Artifact, 1 < l.length →
        filteredArtifacts .any l = filterNotCustomBuild l)
    ∧ ∀ (members : List String) (events : List Message) (status : ExitStatus)
        (b c : Artifact), wfEvents events → status.success = true →
        candidates members .any events = [b, c] →
        b.target.kind.head? = some "bin" →
        c.target.kind.head? = some "custom-build" →
        cargo_build .any members events status = some (.ok b) := by
  constructor
  · intro l hl
    simp [filteredArtifacts, hl]
  · intro members events status b c hwf hs hc hb hcb
    rw [cargo_build_eq .any members events status hwf, hc]
    simp [selectArtifact, hs, filteredArtifacts, filterNotCustomBuild,
      BuildType.matches, hb, hcb]

theorem C3_witness :
    cargo_build .any ["app-pkg-id"]
      [.compilerArtifact appArtifact, .compilerArtifact customBuildArtifact]
      okStatus = some (.ok appArtifact) :=
  C3_any_buildscript_tiebreak.2 ["app-pkg-id"]
    [.compilerArtifact appArtifact, .compilerArtifact customBuildArtifact]
    okStatus appArtifact customBuildArtifact
    (by decide) (by decide) (by decide) (by decide) (by decide)

/-- C5: with zero accumulated candidates, a successful exit yields the
"didn't compile any targets" error and an unsuccessful exit yields the
build-failed error; no product is selected in either case. -/
theorem C5_zero_candidates
    (bt : BuildType) (members : List String) (events : List Message)
    (status : ExitStatus) (hwf : wfEvents events)
    (hc : candidates members bt events = []) :
    (status.success = true →
      cargo_build bt members events status = some (.error .noMatchingTargets))
    ∧ (status.success = false →
      cargo_build bt members events status
        = some (.error (.buildFailed status.code))) := by
  constructor <;> intro hs <;>
    rw [cargo_build_eq bt members events status hwf, hc] <;>
    simp [selectArtifact, hs]

theorem C5_witness :
    cargo_build (.bin "app") ["app-pkg-id"] [.compilerMessage (some "error: e")]
        okStatus = some (.error .noMatchingTargets)
    ∧ cargo_build (.bin "app") ["app-pkg-id"] [.compilerMessage (some "error: e")]
        failStatus = some (.error (.buildFailed (some 101))) :=
  ⟨(C5_zero_candidates (.bin "app") ["app-pkg-id"]
      [.compilerMessage (some "error: e")] okStatus (by decide) (by decide)).1 (by decide),
    (C5_zero_candidates (.bin "app") ["app-pkg-id"]
      [.compilerMessage (some "error: e")] failStatus (by decide) (by decide)).2 (by decide)⟩

/-- C9: an unsuccessful exit status takes precedence over selection — the
exit status is inspected before the accumulated artifacts, so `cargo_build`
fails with the build-failed error even when matching candidates exist, and
never returns a product after a failed build. -/
theorem C9_failed_build_takes_precedence
    (bt : BuildType) (members : List String) (events : List Message)
    (status : ExitStatus) (hwf : wfEvents events) (hs : status.success = false) :
    cargo_build bt members events status
      = some (.error (.buildFailed status.code)) := by
  rw [cargo_build_eq bt members events status hwf]
  simp [selectArtifact, hs]

theorem C9_witness :
    cargo_build (.bin "app") ["app-pkg-id"] [.compilerArtifact appArtifact]
      failStatus = some (.error (.buildFailed (some 101))) :=
  C9_failed_build_takes_precedence (.bin "app") ["app-pkg-id"]
    [.compilerArtifact appArtifact] failStatus (by decide) (by decide)

/-- The spellings `archMapping` can produce other than the input itself. -/
def archOutputs : List String :=
  ["aarch64_be", "armeb", "mipsel", "mips64el", "ppc64le", "sparcel",
    "ppc32", "ppc64", "sparcv9", "systemz", "x86-64"]

theorem archMapping_cases (arch endian : String) :
    archMapping arch endian = arch ∨ archMapping arch endian ∈ archOutputs := by
  unfold archMapping
  split <;> simp [archOutputs]

/-- C7: the architecture-spelling table is idempotent — re-applying it to its
own output (with the same endianness) is a no-op; in particular the
already-canonical LLVM spellings `x86-64` and `ppc64le` map to themselves. -/
theorem C7_archMapping_idempotent :
    (∀ arch endian : String,
      archMapping (archMapping arch endian) endian = archMapping arch endian)
    ∧ archMapping "x86-64" "little" = "x86-64"
    ∧ archMapping "ppc64le" "little" = "ppc64le" := by
  refine ⟨?_, rfl, rfl⟩
  intro arch endian
  rcases archMapping_cases arch endian with h | h
  · rw [h]
    exact h
  · have hfix : ∀ o ∈ archOutputs, archMapping o endian = o := by
      intro o ho
      fin_cases ho <;> rfl
    rw [hfix _ h]

/-- C6 counterexample: a big-endian thumb-family target (e.g. a custom
`thumbeb` target) does not get the raw identifier passed through — the
derived name `thumbeb` is passed via `-arch-name` instead of `-triple`. -/
theorem C6_counterexample :
    objdumpArchArgs ⟨"arm", "big"⟩ "thumbeb-none-eabi"
        = ["-arch-name", "thumbeb"]
    ∧ objdumpArchArgs ⟨"arm", "big"⟩ "thumbeb-none-eabi"
        ≠ ["-triple", "thumbeb-none-eabi"] := by
  decide

/-- C6 amended: for every "thumb"-prefixed target identifier the
architecture table is bypassed (`target_arch` is ignored); when the
configured endianness is not big the raw identifier is passed via `-triple`,
and when it is big the fixed name `thumbeb` is passed via `-arch-name`. -/
theorem C6_thumb_bypass
    (cfg : Cfg) (target : String)
    (h : "thumb".data.isPrefixOf target.data = true) :
    (∀ arch : String, arch_name ⟨arch, cfg.target_endian⟩ target = arch_name cfg target)
    ∧ (cfg.target_endian ≠ "big" → objdumpArchArgs cfg target = ["-triple", target])
    ∧ (cfg.target_endian = "big" →
        objdumpArchArgs cfg target = ["-arch-name", "thumbeb"]) := by
  refine ⟨?_, ?_, ?_⟩
  · intro arch
    simp [arch_name, h]
  · intro he
    simp [objdumpArchArgs, arch_name, h, he]
  · intro he
    simp [objdumpArchArgs, arch_name, h, he]

theorem C6_witness :
    objdumpArchArgs ⟨"arm", "little"⟩ "thumbv7em-none-eabihf"
        = ["-triple", "thumbv7em-none-eabihf"]
    ∧ objdumpArchArgs ⟨"arm", "big"⟩ "thumbv8meb-custom"
        = ["-arch-name", "thumbeb"] :=
  ⟨(C6_thumb_bypass ⟨"arm", "little"⟩ "thumbv7em-none-eabihf" (by decide)).2.1
      (by decide),
    (C6_thumb_bypass ⟨"arm", "big"⟩ "thumbv8meb-custom" (by decide)).2.2 (by decide)⟩

/-- The selector variants whose `matches` arm indexes `kind[0]`: the named
selectors bin/example/test/bench plus custom-build. -/
def readsKindHead : BuildType → Bool
  | .bin _ => true
  | .example' _ => true
  | .test _ => true
  | .bench _ => true
  | .customBuild => true
  | .any => false
  | .lib => false

/-- C10: for a selector that indexes `kind[0]`, matching and product-file
selection are both panic-free on an artifact exactly when its kind list is
non-empty and, when it lacks an executable, its filenames list is
non-empty. -/
theorem C10_totality_precondition
    (bt : BuildType) (a : Artifact) (hbt : readsKindHead bt = true) :
    ((bt.matches a).isSome ∧ (selectFile a).isSome)
      ↔ (a.target.kind ≠ [] ∧ (a.executable = none → a.filenames ≠ [])) := by
  constructor
  · rintro ⟨h1, h2⟩
    refine ⟨?_, ?_⟩
    · intro hk
      cases bt <;> simp [readsKindHead] at hbt <;>
        simp [BuildType.matches, hk] at h1
    · intro he hf
      simp [selectFile, he, hf] at h2
  · rintro ⟨h1, h2⟩
    refine ⟨?_, ?_⟩
    · obtain ⟨b, hb⟩ := matches_isSome bt a h1
      simp [hb]
    · rcases he : a.executable with _ | v
      · rcases hf : a.filenames with _ | ⟨f, fs⟩
        · exact absurd hf (h2 he)
        · simp [selectFile, he, hf]
      · simp [selectFile, he]

theorem C10_witness :
    ((BuildType.bin "app").matches appArtifact).isSome
      ∧ (selectFile appArtifact).isSome :=
  (C10_totality_precondition (.bin "app") appArtifact (by decide)).mpr (by decide)

/-- A set of parsed flags with quiet mode on and verbosity below the
threshold, used to exhibit C8's failure. -/
def quietMatches : Matches :=
  { quiet := true, package := none, jobs := none, lib := false,
    bin := some "app", example' := none, test := none, bench := none,
    release := false, profile := none, features := [],
    noDefaultFeatures := false, allFeatures := false, target := none,
    verbose := 0, color := none, frozen := false, locked := false,
    offline := false, unstableFeatures := [] }

/-- C8 counterexample: the drain loop prints every rendered diagnostic in the
stream unconditionally — with quiet mode set and verbosity 0, a diagnostic
event in the stream is still relayed, not suppressed. -/
theorem C8_counterexample :
    quietMatches.quiet = true ∧ quietMatches.verbose = 0
      ∧ drainEvents ["app-pkg-id"] (cargo_build_args quietMatches).2
          [.compilerMessage (some "warning: unused variable")]
        = some [.inr "warning: unused variable"] := by
  decide

/-- C8 amended: rendered diagnostics are relayed one at a time in original
stream order, interleaved with candidate accumulation, regardless of quiet
mode; quiet mode instead forwards `--quiet` to the external build process,
delegating suppression to it. -/
theorem C8_diagnostics_relay
    (m : Matches) (members : List String) (events : List Message)
    (hwf : wfEvents events) :
    (∃ t, drainEvents members (cargo_build_args m).2 events = some t
        ∧ t = events.filterMap (entryOf members (cargo_build_args m).2)
        ∧ traceDiagnostics t = renderedDiagnostics events)
    ∧ (m.quiet = true → "--quiet" ∈ (cargo_build_args m).1) := by
  constructor
  · exact ⟨_, drainEvents_eq members (cargo_build_args m).2 events hwf, rfl,
      traceDiagnostics_filterMap members (cargo_build_args m).2 events⟩
  · intro hq
    simp [cargo_build_args, hq]

theorem C8_witness :
    drainEvents ["app-pkg-id"] (cargo_build_args quietMatches).2
        [.compilerMessage (some "w"), .compilerArtifact appArtifact]
      = some [.inr "w", .inl appArtifact]
    ∧ "--quiet" ∈ (cargo_build_args quietMatches).1 := by
  obtain ⟨⟨t, h1, h2, h3⟩, h4⟩ :=
    C8_diagnostics_relay quietMatches ["app-pkg-id"]
      [.compilerMessage (some "w"), .compilerArtifact appArtifact] (by decide)
  subst h2
  exact ⟨h1, h4 rfl⟩

theorem mapOption_isSome (f : α → Option β) (l : List α)
    (h : ∀ a ∈ l, (f a).isSome) : ∃ r, mapOption f l = some r := by
  induction l with
  | nil => exact ⟨[], rfl⟩
  | cons a rest ih =>
    obtain ⟨r, hr⟩ := ih (fun x hx => h x (List.mem_cons_of_mem _ hx))
    obtain ⟨b, hb⟩ := Option.isSome_iff_exists.mp (h a (List.mem_cons_self _ _))
    exact ⟨b :: r, by simp [mapOption, hb, hr]⟩

theorem mapOption_mem_iff (f : α → Option β) (l : List α) (r : List β)
    (hr : mapOption f l = some r) (b : β) :
    b ∈ r ↔ ∃ a ∈ l, f a = some b := by
  induction l generalizing r with
  | nil =>
    simp [mapOption] at hr
    subst hr
    simp
  | cons a rest ih =>
    rcases hfa : f a with _ | c <;> rcases hrest : mapOption f rest with _ | rs <;>
      simp [mapOption, hfa, hrest] at hr
    subst hr
    constructor
    · intro hb
      rcases List.mem_cons.mp hb with rfl | hb'
      · exact ⟨a, List.mem_cons_self _ _, hfa⟩
      · obtain ⟨x, hx, hfx⟩ := (ih rs hrest).mp hb'
        exact ⟨x, List.mem_cons_of_mem _ hx, hfx⟩
    · rintro ⟨x, hx, hfx⟩
      rcases List.mem_cons.mp hx with rfl | hx'
      · rw [hfa] at hfx
        injection hfx with hbc
        exact hbc ▸ List.mem_cons_self _ _
      · exact List.mem_cons_of_mem _ ((ih rs hrest).mpr ⟨x, hx', hfx⟩)

theorem from_artifact_isSome (a : Artifact) (h : a.target.kind ≠ []) :
    (BuildType.from_artifact a).isSome := by
  rcases hk : a.target.kind with _ | ⟨k, ks⟩
  · exact absurd hk h
  · simp [BuildType.from_artifact, hk]

theorem generate_command_isSome (tool : Tool) (a : Artifact)
    (h : a.target.kind ≠ []) : (BuildType.generate_command tool a).isSome := by
  obtain ⟨bt, hbt⟩ := Option.isSome_iff_exists.mp (from_artifact_isSome a h)
  simp [BuildType.generate_command, hbt]

theorem generate_command_with_package_isSome (tool : Tool) (a : Artifact)
    (h : a.target.kind ≠ []) :
    (BuildType.generate_command_with_package tool a).isSome := by
  obtain ⟨bt, hbt⟩ := Option.isSome_iff_exists.mp (from_artifact_isSome a h)
  simp [BuildType.generate_command_with_package, hbt]

/-- Behaviour of `format_targets` on artifacts with non-empty kinds: it never
panics, it is grouped exactly when more than one distinct package id occurs,
and the commands it lists are exactly the renderings of the given
artifacts. -/
theorem format_targets_spec (tool : Tool) (l : List Artifact)
    (h : ∀ a ∈ l, a.target.kind ≠ []) :
    ∃ fmt, format_targets tool l = some fmt
      ∧ (fmt.isGrouped = true ↔ ((l.map (·.package_id)).dedup).length ≠ 1)
      ∧ ∀ c, c ∈ fmt.listedCommands ↔
          (if ((l.map (·.package_id)).dedup).length = 1
            then ∃ a ∈ l, BuildType.generate_command tool a = some c
            else ∃ a ∈ l, BuildType.generate_command_with_package tool a = some c) := by
  by_cases hk : ((l.map (·.package_id)).dedup).length = 1
  · obtain ⟨r, hr⟩ :=
      mapOption_isSome (BuildType.generate_command tool) l
        (fun a ha => generate_command_isSome tool a (h a ha))
    refine ⟨.single r, ?_, ?_, ?_⟩
    · simp [format_targets, hk, hr]
    · simp [FormattedTargets.isGrouped, hk]
    · intro c
      simp [FormattedTargets.listedCommands, hk,
        mapOption_mem_iff (BuildType.generate_command tool) l r hr c]
  · have hinner : ∀ k ∈ (l.map (·.package_id)).dedup,
        ((mapOption (BuildType.generate_command_with_package tool)
            (l.filter (fun a => a.package_id == k))).map
          (fun cmds => (k, cmds))).isSome := by
      intro k hk'
      obtain ⟨r, hr⟩ :=
        mapOption_isSome (BuildType.generate_command_with_package tool)
          (l.filter (fun a => a.package_id == k))
          (fun a ha =>
            generate_command_with_package_isSome tool a (h a (List.mem_filter.mp ha).1))
      simp [hr]
    obtain ⟨gs, hgs⟩ :=
      mapOption_isSome
        (fun k =>
          (mapOption (BuildType.generate_command_with_package tool)
              (l.filter (fun a => a.package_id == k))).map
            (fun cmds => (k, cmds)))
        ((l.map (·.package_id)).dedup) hinner
    refine ⟨.grouped gs, ?_, ?_, ?_⟩
    · simp [format_targets, hk, hgs]
    · simp [FormattedTargets.isGrouped, hk]
    · intro c
      rw [if_neg hk]
      simp only [FormattedTargets.listedCommands]
      constructor
      · intro hcmem
        obtain ⟨cs, hcs, hcc⟩ := List.mem_flatten.mp hcmem
        obtain ⟨g, hg, rfl⟩ := List.mem_map.mp hcs
        obtain ⟨k, hkmem, hfk⟩ := (mapOption_mem_iff _ _ _ hgs g).mp hg
        obtain ⟨cmds, hcmds, hgeq⟩ := Option.map_eq_some'.mp hfk
        subst hgeq
        obtain ⟨a, hal, hac⟩ := (mapOption_mem_iff _ _ _ hcmds c).mp hcc
        exact ⟨a, (List.mem_filter.mp hal).1, hac⟩
      · rintro ⟨a, hal, hac⟩
        have hkmem : a.package_id ∈ (l.map (·.package_id)).dedup :=
          List.mem_dedup.mpr (List.mem_map_of_mem _ hal)
        obtain ⟨g, hfk⟩ := Option.isSome_iff_exists.mp (hinner _ hkmem)
        have hg : g ∈ gs := (mapOption_mem_iff _ _ _ hgs g).mpr ⟨_, hkmem, hfk⟩
        obtain ⟨cmds, hcmds, hgeq⟩ := Option.map_eq_some'.mp hfk
        subst hgeq
        have hafilter : a ∈ l.filter (fun x => x.package_id == a.package_id) :=
          List.mem_filter.mpr ⟨hal, by simp⟩
        have hcc : c ∈ cmds := (mapOption_mem_iff _ _ _ hcmds c).mpr ⟨a, hafilter, hac⟩
        exact List.mem_flatten.mpr ⟨cmds, List.mem_map_of_mem Prod.snd hg, hcc⟩

theorem candidates_wf (members : List String) (bt : BuildType) (events : List Message)
    (hwf : wfEvents events) (a : Artifact) (ha : a ∈ candidates members bt events) :
    a.target.kind ≠ [] := by
  obtain ⟨m, hm, hma⟩ := List.mem_filterMap.mp ha
  match m with
  | .compilerArtifact b =>
    have hw : b.target.kind ≠ [] := hwf _ hm
    have hma' : (if b.package_id ∈ members ∧ bt.matches b = some true
        then some b else none) = some a := hma
    by_cases hcond : b.package_id ∈ members ∧ bt.matches b = some true
    · rw [if_pos hcond] at hma'
      injection hma' with hba
      exact hba ▸ hw
    · simp [hcond] at hma'
  | .compilerMessage r => simp at hma
  | .other => simp at hma

/-- C4: with two or more matching candidates and a selector other than `Any`,
`cargo_build` fails with the ambiguous-targets error carrying exactly those
candidates; the listing produced by `format_targets` is grouped by package
exactly when more than one package id occurs among them and lists exactly the
candidates' command lines.  No candidate is ever silently selected. -/
theorem C4_ambiguous_targets
    (bt : BuildType) (members : List String) (events : List Message)
    (status : ExitStatus) (l : List Artifact)
    (hwf : wfEvents events) (hs : status.success = true) (hbt : bt ≠ .any)
    (hc : candidates members bt events = l) (hlen : 2 ≤ l.length) :
    cargo_build bt members events status = some (.error (.ambiguousTargets bt l))
    ∧ ∀ tool : Tool, ∃ fmt, format_targets tool l = some fmt
        ∧ (fmt.isGrouped = true ↔ 1 < ((l.map (·.package_id)).dedup).length)
        ∧ ∀ c, c ∈ fmt.listedCommands ↔
            (if ((l.map (·.package_id)).dedup).length = 1
              then ∃ a ∈ l, BuildType.generate_command tool a = some c
              else ∃ a ∈ l, BuildType.generate_command_with_package tool a = some c) := by
  have hwfl : ∀ a ∈ l, a.target.kind ≠ [] := by
    intro a ha
    exact candidates_wf members bt events hwf a (hc ▸ ha)
  constructor
  · rw [cargo_build_eq bt members events status hwf, hc]
    rcases l with _ | ⟨a, _ | ⟨b, rest⟩⟩
    · exact absurd hlen (by simp)
    · exact absurd hlen (by simp)
    · simp [selectArtifact, hs, filteredArtifacts_of_ne_any bt _ hbt]
  · intro tool
    obtain ⟨fmt, h1, h2, h3⟩ := format_targets_spec tool l hwfl
    refine ⟨fmt, h1, ?_, h3⟩
    have h0 : ((l.map (·.package_id)).dedup).length ≠ 0 := by
      intro h00
      have he1 : (l.map (·.package_id)).dedup = [] := List.length_eq_zero.mp h00
      have he2 : l.map (·.package_id) = [] := (List.dedup_eq_nil _).mp he1
      have he3 : l = [] := List.map_eq_nil_iff.mp he2
      rw [he3] at hlen
      exact absurd hlen (by simp)
    rw [h2]
    omega

def appArtifactB : Artifact :=
  ⟨"app-pkg-id-b", ⟨"app", ["bin"]⟩, some "target/debug/app", ["target/debug/app"]⟩

theorem C4_witness :
    cargo_build (.bin "app") ["app-pkg-id", "app-pkg-id-b"]
      [.compilerArtifact appArtifact, .compilerArtifact appArtifactB]
      okStatus
      = some (.error (.ambiguousTargets (.bin "app") [appArtifact, appArtifactB])) :=
  (C4_ambiguous_targets (.bin "app") ["app-pkg-id", "app-pkg-id-b"]
    [.compilerArtifact appArtifact, .compilerArtifact appArtifactB]
    okStatus [appArtifact, appArtifactB]
    (by decide) (by decide) (by decide) (by decide) (by decide)).1

end Binutils
